import Mathlib

/-!
Verification of the signaling relay in `server.py` (webrtc-share).

The server keeps two module-level Python dicts, `active_connections`
(peer_id → WebSocket) and `peer_registry` (peer_id → info dict), and runs
one `websocket_endpoint` task per client connection.  We embed the dicts
as functions `String → Option β` (a faithful functional model of a Python
dict restricted to the operations the code performs: `d[k] = v`, `del d[k]`,
`k in d`, `d[k]`), WebSocket channels as abstract `Nat` handles, and the
per-connection read loop as a recursion over the list of inbound frames.
Sends performed by the server are collected as `(channel, envelope)` pairs
in the order they are executed.
-/

namespace WebrtcShare

/-- A Python dict with string keys, modelled extensionally by its lookup
function.  Only the operations that `server.py` performs on its dicts are
provided. -/
abbrev Dict (β : Type) := String → Option β

/-- The empty dict literal. -/
def Dict.empty {β : Type} : Dict β := fun _ => none

/-- Assignment `d[k] = v`: inserts or overwrites. -/
def Dict.set {β : Type} (d : Dict β) (k : String) (v : β) : Dict β :=
  fun x => if x = k then some v else d x

/-- Deletion `del d[k]`. -/
def Dict.del {β : Type} (d : Dict β) (k : String) : Dict β :=
  fun x => if x = k then none else d x

/-- An opaque JSON payload value (the relay never inspects payloads, so a
string token suffices to track pass-through). -/
abbrev Payload := String

/-- A parsed inbound JSON object, with one field per key the handler reads
via `message.get(...)`, plus the fields the handler never reads: a
client-supplied `from` key and arbitrary further keys.  `none` means the key
is absent (Python `dict.get` returns `None`). -/
structure InMessage where
  type? : Option String
  target? : Option String
  offer? : Option Payload
  answer? : Option Payload
  candidate? : Option Payload
  clientFrom? : Option String
  extra : List (String × Payload)
deriving DecidableEq

/-- An outbound envelope, one constructor per `json.dumps` literal in
`websocket_endpoint`.  Constructor arguments are the non-constant fields of
the corresponding JSON object. -/
inductive OutMessage where
  | registered (peer_id : String)
  | connectionRequest (sender : String)
  | offer (sender : String) (payload : Option Payload)
  | answer (sender : String) (payload : Option Payload)
  | iceCandidate (sender : String) (payload : Option Payload)
  | peerDisconnected (sender : String)
  | peerUnavailable (target : Option String)
deriving DecidableEq

/-- The `from` field of an outbound envelope, when its JSON object has one. -/
def OutMessage.fromField : OutMessage → Option String
  | .registered _ => none
  | .connectionRequest s => some s
  | .offer s _ => some s
  | .answer s _ => some s
  | .iceCandidate s _ => some s
  | .peerDisconnected s => some s
  | .peerUnavailable _ => none

/-- The entry stored in `peer_registry` for a connected peer. -/
structure PeerInfo where
  ws : Nat
  connected_to : Option String
deriving DecidableEq

/-- The module-level mutable state of `server.py`: the two dicts. -/
structure ServerState where
  active_connections : Dict Nat
  peer_registry : Dict PeerInfo

/-- The state at module load: both dicts empty. -/
def initialState : ServerState :=
  { active_connections := Dict.empty, peer_registry := Dict.empty }

/-- The membership test `target_peer in active_connections` followed by the
lookup `active_connections[target_peer]`, for the possibly-absent value of
`message.get("target")` (Python `None` is never a key of a str-keyed dict). -/
def lookupTarget (conns : Dict Nat) : Option String → Option Nat
  | none => none
  | some t => conns t

/-- Registration performed at the top of `websocket_endpoint`, right after
`websocket.accept()` and before the read loop: both dicts get an entry for
`peer_id`, with `connected_to` initialized to `None`. -/
def registerPeer (st : ServerState) (peer_id : String) (ws : Nat) : ServerState :=
  { active_connections := st.active_connections.set peer_id ws
    peer_registry := st.peer_registry.set peer_id { ws := ws, connected_to := none } }

/-- The `finally` block of `websocket_endpoint`: conditional `del` of
`peer_id` from both dicts. -/
def cleanupPeer (st : ServerState) (peer_id : String) : ServerState :=
  { active_connections :=
      if (st.active_connections peer_id).isSome then st.active_connections.del peer_id
      else st.active_connections
    peer_registry :=
      if (st.peer_registry peer_id).isSome then st.peer_registry.del peer_id
      else st.peer_registry }

/-- The dispatch on `message_type` inside the read loop, for one parsed
message.  Returns the (unchanged) state together with the list of
`(channel, envelope)` sends the iteration performs, in execution order.
Each `elif` branch is translated in source order. -/
def handleMessage (st : ServerState) (peer_id : String) (ws : Nat)
    (message : InMessage) : ServerState × List (Nat × OutMessage) :=
  let message_type := message.type?
  let target_peer := message.target?
  if message_type = some "register" then
    (st, [(ws, OutMessage.registered peer_id)])
  else if message_type = some "connect" then
    match lookupTarget st.active_connections target_peer with
    | some target_ws => (st, [(target_ws, OutMessage.connectionRequest peer_id)])
    | none => (st, [(ws, OutMessage.peerUnavailable target_peer)])
  else if message_type = some "offer" then
    match lookupTarget st.active_connections target_peer with
    | some target_ws => (st, [(target_ws, OutMessage.offer peer_id message.offer?)])
    | none => (st, [(ws, OutMessage.peerUnavailable target_peer)])
  else if message_type = some "answer" then
    match lookupTarget st.active_connections target_peer with
    | some target_ws => (st, [(target_ws, OutMessage.answer peer_id message.answer?)])
    | none => (st, [(ws, OutMessage.peerUnavailable target_peer)])
  else if message_type = some "ice-candidate" then
    match lookupTarget st.active_connections target_peer with
    | some target_ws => (st, [(target_ws, OutMessage.iceCandidate peer_id message.candidate?)])
    | none => (st, [(ws, OutMessage.peerUnavailable target_peer)])
  else if message_type = some "disconnect" then
    match lookupTarget st.active_connections target_peer with
    | some target_ws => (st, [(target_ws, OutMessage.peerDisconnected peer_id)])
    | none => (st, [])
  else
    (st, [])

/-- One raw text frame received by `websocket.receive_text()`:
either text that `json.loads` rejects, JSON that parses but is not an
object (so `message.get` raises `AttributeError`), or a parsed object. -/
inductive RawFrame where
  | nonJSON
  | nonObject
  | obj (message : InMessage)
deriving DecidableEq

/-- Why the `while True` read loop ended: `clientClosed` models
`WebSocketDisconnect` raised by `receive_text` when the client closes the
channel (in our embedding: the frame list is exhausted); `errored` models
any other exception escaping the loop body — in particular
`json.JSONDecodeError` from `json.loads` and `AttributeError` from
`message.get` on a non-object — caught by the outer `except Exception`.
Either way the handler function returns afterwards, which closes the
WebSocket channel. -/
inductive LoopExit where
  | clientClosed
  | errored
deriving DecidableEq

/-- The `while True` read loop of `websocket_endpoint`, run over a list of
inbound frames: processes frames in order, accumulating sends, until the
frames are exhausted (client closed) or a frame raises (loop aborts; later
frames are never read). -/
def readLoop (peer_id : String) (ws : Nat) :
    ServerState → List RawFrame → ServerState × List (Nat × OutMessage) × LoopExit
  | st, [] => (st, [], LoopExit.clientClosed)
  | st, RawFrame.nonJSON :: _ => (st, [], LoopExit.errored)
  | st, RawFrame.nonObject :: _ => (st, [], LoopExit.errored)
  | st, RawFrame.obj m :: rest =>
    let step := handleMessage st peer_id ws m
    let next := readLoop peer_id ws step.1 rest
    (next.1, step.2 ++ next.2.1, next.2.2)

/-- The whole lifetime of one `websocket_endpoint` task: accept and
register, run the read loop, then the `finally` cleanup. -/
def runConnection (st : ServerState) (peer_id : String) (ws : Nat)
    (frames : List RawFrame) : ServerState × List (Nat × OutMessage) × LoopExit :=
  let opened := registerPeer st peer_id ws
  let looped := readLoop peer_id ws opened frames
  (cleanupPeer looped.1 peer_id, looped.2)

/-- Result of the `__main__` startup block: either `exit(1)` after printing
a diagnostic, or a call to `uvicorn.run` bound to the given host and port
(the certificate-path detail lines of the diagnostic are elided). -/
inductive StartupResult where
  | exited (code : Nat) (diagnostic : String)
  | serving (host : String) (port : Nat)
deriving DecidableEq

/-- The `__main__` block of `server.py`, as a function of whether the key
file `cert.key` and the certificate file `cert.crt` exist. -/
def mainStartup (keyfileExists certfileExists : Bool) : StartupResult :=
  if !keyfileExists || !certfileExists then
    StartupResult.exited 1 "SSL certificates not found!"
  else
    StartupResult.serving "0.0.0.0" 10500

/-- States reachable from module load by any interleaving of the state
mutations the server performs: connect-time registration, cleanup on
channel closure, and the (state-preserving) message dispatch, each run by
an arbitrary connection task. -/
inductive Reachable : ServerState → Prop where
  | init : Reachable initialState
  | register (st : ServerState) (pid : String) (ws : Nat) :
      Reachable st → Reachable (registerPeer st pid ws)
  | cleanup (st : ServerState) (pid : String) :
      Reachable st → Reachable (cleanupPeer st pid)
  | handle (st : ServerState) (pid : String) (ws : Nat) (m : InMessage) :
      Reachable st → Reachable (handleMessage st pid ws m).1

/-- Modelled from the spec (refinement side, to compare with
`handleMessage`): the forwarded envelope the spec promises for a signaling
message — same `type` tag, `from` set to the sender, and the type-specific
payload field passed through unchanged. -/
def expectedSignalForward (sender : String) (m : InMessage) : OutMessage :=
  if m.type? = some "offer" then OutMessage.offer sender m.offer?
  else if m.type? = some "answer" then OutMessage.answer sender m.answer?
  else OutMessage.iceCandidate sender m.candidate?

/-- A signaling message (`offer`, `answer` or `ice-candidate`) addressed
to peer `Y`. -/
def IsSignalTo (Y : String) (m : InMessage) : Prop :=
  (m.type? = some "offer" ∨ m.type? = some "answer" ∨ m.type? = some "ice-candidate") ∧
    m.target? = some Y

instance (Y : String) (m : InMessage) : Decidable (IsSignalTo Y m) := by
  unfold IsSignalTo
  infer_instance

/-!
Concrete inputs used by witnesses and counterexamples.
-/

/-- A plain `register` message. -/
def mRegister : InMessage :=
  { type? := some "register", target? := none, offer? := none, answer? := none
    candidate? := none, clientFrom? := none, extra := [] }

/-- An inbound object with no `type` key. -/
def mNoType : InMessage :=
  { type? := none, target? := some "bob", offer? := none, answer? := none
    candidate? := none, clientFrom? := none, extra := [("hello", "1")] }

/-- An `offer` addressed to `bob`. -/
def mOfferToBob : InMessage :=
  { type? := some "offer", target? := some "bob", offer? := some "sdp-x", answer? := none
    candidate? := none, clientFrom? := none, extra := [] }

/-- An `ice-candidate` addressed to `bob`. -/
def mIceToBob : InMessage :=
  { type? := some "ice-candidate", target? := some "bob", offer? := none, answer? := none
    candidate? := some "cand-1", clientFrom? := none, extra := [] }

/-- A `connect` addressed to the unregistered id `ghost`. -/
def mConnectToGhost : InMessage :=
  { type? := some "connect", target? := some "ghost", offer? := none, answer? := none
    candidate? := none, clientFrom? := none, extra := [] }

/-- A `disconnect` addressed to the unregistered id `ghost`. -/
def mDisconnectToGhost : InMessage :=
  { type? := some "disconnect", target? := some "ghost", offer? := none, answer? := none
    candidate? := none, clientFrom? := none, extra := [] }

/-- A `disconnect` addressed to `bob`. -/
def mDisconnectToBob : InMessage :=
  { type? := some "disconnect", target? := some "bob", offer? := none, answer? := none
    candidate? := none, clientFrom? := none, extra := [] }

/-- An `offer` to `bob` carrying a spoofed client-supplied `from` key and a
junk key, both unread by the server. -/
def mSpoofedOffer : InMessage :=
  { type? := some "offer", target? := some "bob", offer? := some "sdp-x", answer? := none
    candidate? := none, clientFrom? := some "mallory", extra := [("junk", "1")] }

/-- The state with `alice` on channel 0 and `bob` on channel 1. -/
def stAliceBob : ServerState :=
  registerPeer (registerPeer initialState "alice" 0) "bob" 1

/-- The state after `bob` connected on channel 1 and then its channel
closed. -/
def stBobGone : ServerState :=
  cleanupPeer (registerPeer initialState "bob" 1) "bob"

/-!
Helper lemmas shared by the claim theorems.
-/

/-- No branch of the message dispatch mutates either dict: the read loop
never changes the server state. -/
theorem handleMessage_state_eq (st : ServerState) (peer_id : String) (ws : Nat)
    (message : InMessage) : (handleMessage st peer_id ws message).1 = st := by
  simp only [handleMessage]
  repeat' split
  all_goals rfl

/-- Lookup after `Dict.set` at the written key. -/
theorem Dict.get_set_self {β : Type} (d : Dict β) (k : String) (v : β) :
    d.set k v k = some v := by
  simp [Dict.set]

/-- Lookup after `Dict.set` at another key. -/
theorem Dict.get_set_ne {β : Type} (d : Dict β) (k x : String) (v : β)
    (h : x ≠ k) : d.set k v x = d x := by
  simp [Dict.set, h]

/-- Lookup after `Dict.del` at the deleted key. -/
theorem Dict.get_del_self {β : Type} (d : Dict β) (k : String) :
    d.del k k = none := by
  simp [Dict.del]

/-- A conditional delete, as in the `finally` block, leaves the key absent
whether or not it was present. -/
theorem Dict.condDel_self {β : Type} (d : Dict β) (k : String) :
    (if (d k).isSome then d.del k else d) k = none := by
  by_cases h : (d k).isSome
  · simp [h, Dict.del]
  · simp only [h, if_false]
    exact Option.not_isSome_iff_eq_none.mp h

/-- Cleanup always leaves the cleaned peer absent from both dicts, whether
or not it was present. -/
theorem cleanupPeer_lookup_none (st : ServerState) (peer_id : String) :
    (cleanupPeer st peer_id).active_connections peer_id = none ∧
      (cleanupPeer st peer_id).peer_registry peer_id = none :=
  ⟨Dict.condDel_self st.active_connections peer_id,
    Dict.condDel_self st.peer_registry peer_id⟩

/-- Dispatch on a message whose `target` is present but not registered:
the four request/signaling types answer the sender with one
`peer-unavailable`; `disconnect`, whose `if` has no `else`, sends nothing.
No branch forwards anything or touches the state. -/
theorem handleMessage_absent_target (st : ServerState) (pid : String) (ws : Nat)
    (m : InMessage) (t : String) (htar : m.target? = some t)
    (habs : st.active_connections t = none) :
    ((m.type? = some "connect" ∨ m.type? = some "offer" ∨ m.type? = some "answer" ∨
        m.type? = some "ice-candidate") →
      handleMessage st pid ws m = (st, [(ws, OutMessage.peerUnavailable (some t))])) ∧
    (m.type? = some "disconnect" → handleMessage st pid ws m = (st, [])) := by
  constructor
  · rintro (h | h | h | h) <;> simp [handleMessage, h, htar, lookupTarget, habs]
  · intro h
    simp [handleMessage, h, htar, lookupTarget, habs]

/-- Dispatch of a signaling message whose target is registered: a single
send of the forwarded envelope to the target's channel. -/
theorem handleMessage_signal (st : ServerState) (pid : String) (ws : Nat)
    (m : InMessage) (Y : String) (wsY : Nat) (hm : IsSignalTo Y m)
    (hY : st.active_connections Y = some wsY) :
    handleMessage st pid ws m = (st, [(wsY, expectedSignalForward pid m)]) := by
  obtain ⟨hty, htar⟩ := hm
  rcases hty with h | h | h <;>
    simp [handleMessage, expectedSignalForward, h, htar, lookupTarget, hY]

/-!
Claim theorems.
-/

/-- Claim C4: registering a channel under a `peer_id` that is already
present overwrites the previous entry — a subsequent lookup returns only
the newest channel — and duplicate registration is never rejected
(`registerPeer` is total and unconditional). -/
theorem duplicate_registration_overwrites (st : ServerState) (A : String)
    (ws1 ws2 : Nat) :
    (registerPeer (registerPeer st A ws1) A ws2).active_connections A = some ws2 ∧
      (registerPeer (registerPeer st A ws1) A ws2).peer_registry A
        = some { ws := ws2, connected_to := none } :=
  ⟨Dict.get_set_self _ A ws2, Dict.get_set_self _ A _⟩

/-- Claim C7: if the key file or the certificate file is missing, the
`__main__` block exits with code 1 after a diagnostic; if both exist it
hands the app to the server bound to the fixed host `0.0.0.0` and port
`10500`. -/
theorem startup_requires_certificates (keyfileExists certfileExists : Bool) :
    mainStartup keyfileExists certfileExists
      = if keyfileExists && certfileExists then StartupResult.serving "0.0.0.0" 10500
        else StartupResult.exited 1 "SSL certificates not found!" := by
  cases keyfileExists <;> cases certfileExists <;> rfl

/-- Claim C10: the `finally` cleanup is keyed only by the closing task's
`peer_id` and never compares channels.  After `A` re-registers on a new
channel `ws2` (so `ws2` is the registered channel), the closure of the
superseded channel `ws1`'s task removes the newest entry: `A` becomes
unroutable although `ws2` never closed. -/
theorem orphan_cleanup_removes_new_entry (st : ServerState) (A : String)
    (ws1 ws2 : Nat) :
    (registerPeer (registerPeer st A ws1) A ws2).active_connections A = some ws2 ∧
      (cleanupPeer (registerPeer (registerPeer st A ws1) A ws2) A).active_connections A
        = none ∧
      (cleanupPeer (registerPeer (registerPeer st A ws1) A ws2) A).peer_registry A
        = none :=
  ⟨Dict.get_set_self _ A ws2,
    (cleanupPeer_lookup_none _ A).1, (cleanupPeer_lookup_none _ A).2⟩

/-- Claim C6: a peer is routable by its path-supplied id as soon as its
channel opens (registration happens before the read loop), and handling a
`register` envelope only sends `registered` back to the sender, leaving the
state — in particular every registry entry — unchanged. -/
theorem register_is_pure_ack (st st2 : ServerState) (pid : String) (ws : Nat)
    (m : InMessage) (h : m.type? = some "register") :
    (registerPeer st pid ws).active_connections pid = some ws ∧
      handleMessage st2 pid ws m = (st2, [(ws, OutMessage.registered pid)]) := by
  refine ⟨Dict.get_set_self _ pid ws, ?_⟩
  simp [handleMessage, h]

/-- Witness for C6 at `peer_id` ``alice``, channel 0, the plain `register`
message. -/
theorem register_is_pure_ack_witness :
    mRegister.type? = some "register" ∧
      ((registerPeer initialState "alice" 0).active_connections "alice" = some 0 ∧
        handleMessage initialState "alice" 0 mRegister
          = (initialState, [(0, OutMessage.registered "alice")])) :=
  ⟨rfl, register_is_pure_ack initialState initialState "alice" 0 mRegister rfl⟩

/-- Claim C9: in every reachable state, every registry entry has
`connected_to = none`: the field is initialized to `None` at registration
and no operation of the server ever writes or reads it. -/
theorem connected_to_always_none (st : ServerState) (h : Reachable st) :
    ∀ pid info, st.peer_registry pid = some info → info.connected_to = none := by
  induction h with
  | init =>
      intro pid info hl
      simp [initialState, Dict.empty] at hl
  | register st' pid' ws' _ ih =>
      intro pid info hl
      simp only [registerPeer, Dict.set] at hl
      split at hl
      · cases hl
        rfl
      · exact ih pid info hl
  | cleanup st' pid' _ ih =>
      intro pid info hl
      simp only [cleanupPeer] at hl
      split at hl
      · simp only [Dict.del] at hl
        split at hl
        · cases hl
        · exact ih pid info hl
      · exact ih pid info hl
  | handle st' pid' ws' m _ ih =>
      intro pid info hl
      rw [handleMessage_state_eq] at hl
      exact ih pid info hl

/-- Witness for C9 at the reachable state with `alice` registered on
channel 5, which has a non-vacuous registry entry. -/
theorem connected_to_always_none_witness :
    (registerPeer initialState "alice" 5).peer_registry "alice"
        = some { ws := 5, connected_to := none } ∧
      ∀ pid info,
        (registerPeer initialState "alice" 5).peer_registry pid = some info →
          info.connected_to = none :=
  ⟨by simp [registerPeer, initialState, Dict.set],
    connected_to_always_none (registerPeer initialState "alice" 5)
      (Reachable.register initialState "alice" 5 Reachable.init)⟩

/-- Claim C1: a sequence of signaling envelopes (`offer`, `answer`,
`ice-candidate`) sent by registered peer `X` and addressed to registered
peer `Y` is delivered, one send per envelope, to `Y`'s channel in the order
sent, each with the same type tag, `from` set to `X`, and the type-specific
payload field passed through unchanged. -/
theorem signaling_routed_in_order (st : ServerState) (X Y : String)
    (wsX wsY : Nat) (msgs : List InMessage)
    (hX : st.active_connections X = some wsX)
    (hY : st.active_connections Y = some wsY)
    (hall : ∀ m ∈ msgs, IsSignalTo Y m) :
    readLoop X wsX st (msgs.map RawFrame.obj)
      = (st, msgs.map (fun m => (wsY, expectedSignalForward X m)),
          LoopExit.clientClosed) := by
  induction msgs with
  | nil => rfl
  | cons m rest ih =>
      have hm : IsSignalTo Y m := hall m (by simp)
      have hrest : ∀ m' ∈ rest, IsSignalTo Y m' := fun m' hm' => hall m' (by simp [hm'])
      have hstep := handleMessage_signal st X wsX m Y wsY hm hY
      simp [readLoop, hstep, ih hrest]

/-- Witness for C1: with `alice` on channel 0 and `bob` on channel 1, the
two-element sequence offer-then-candidate from `alice` to `bob` is
delivered to channel 1 in order with `from` = `alice` and payloads
unchanged. -/
theorem signaling_routed_in_order_witness :
    stAliceBob.active_connections "alice" = some 0 ∧
      stAliceBob.active_connections "bob" = some 1 ∧
      (∀ m ∈ [mOfferToBob, mIceToBob], IsSignalTo "bob" m) ∧
      readLoop "alice" 0 stAliceBob ([mOfferToBob, mIceToBob].map RawFrame.obj)
        = (stAliceBob,
            [mOfferToBob, mIceToBob].map
              (fun m => (1, expectedSignalForward "alice" m)),
            LoopExit.clientClosed) :=
  ⟨by decide, by decide, by decide,
    signaling_routed_in_order stAliceBob "alice" "bob" 0 1 [mOfferToBob, mIceToBob]
      (by decide) (by decide) (by decide)⟩

/-- Counterexample to claim C2 as stated: the relay reads the non-JSON
frame, `json.loads` raises, and the outer `except Exception` ends the read
loop — the following well-formed `register` frame is never processed and
the connection is closed, whereas the claim predicts the loop continues
identically to the run without the malformed frame. -/
theorem nonjson_aborts_loop_cex :
    (readLoop "alice" 0 initialState [RawFrame.nonJSON, RawFrame.obj mRegister]).2
        = ([], LoopExit.errored) ∧
      (readLoop "alice" 0 initialState [RawFrame.obj mRegister]).2
        = ([(0, OutMessage.registered "alice")], LoopExit.clientClosed) ∧
      (readLoop "alice" 0 initialState [RawFrame.nonJSON, RawFrame.obj mRegister]).2
        ≠ (readLoop "alice" 0 initialState [RawFrame.obj mRegister]).2 := by
  decide

/-- Claim C2 (amended): a parseable object missing the `type` field is
ignored — no reply, state untouched, the loop continues to the next
message.  An unparseable (non-JSON) frame, or JSON that is not an object,
raises out of the loop: no reply is sent, the remaining frames are never
read, and the connection is torn down. -/
theorem malformed_input_handling (st : ServerState) (pid : String) (ws : Nat)
    (m : InMessage) (hm : m.type? = none) (rest : List RawFrame) :
    readLoop pid ws st (RawFrame.obj m :: rest) = readLoop pid ws st rest ∧
      readLoop pid ws st (RawFrame.nonJSON :: rest) = (st, [], LoopExit.errored) ∧
      readLoop pid ws st (RawFrame.nonObject :: rest) = (st, [], LoopExit.errored) := by
  refine ⟨?_, rfl, rfl⟩
  have hmm : handleMessage st pid ws m = (st, []) := by
    simp [handleMessage, hm]
  simp [readLoop, hmm]

/-- Witness for C2 (amended) at a type-less object followed by a
`register` frame, and at a leading malformed frame. -/
theorem malformed_input_handling_witness :
    mNoType.type? = none ∧
      (readLoop "alice" 0 initialState (RawFrame.obj mNoType :: [RawFrame.obj mRegister])
          = readLoop "alice" 0 initialState [RawFrame.obj mRegister] ∧
        readLoop "alice" 0 initialState (RawFrame.nonJSON :: [RawFrame.obj mRegister])
          = (initialState, [], LoopExit.errored) ∧
        readLoop "alice" 0 initialState (RawFrame.nonObject :: [RawFrame.obj mRegister])
          = (initialState, [], LoopExit.errored)) :=
  ⟨rfl, malformed_input_handling initialState "alice" 0 mNoType rfl [RawFrame.obj mRegister]⟩

/-- Counterexample to claim C3 as stated: `disconnect` is a directed type,
yet when its `target` is unregistered the sender receives no
`peer-unavailable` (the `disconnect` branch has no `else`): the send list
is empty, not the single reply the claim requires. -/
theorem disconnect_absent_target_silent_cex :
    initialState.active_connections "ghost" = none ∧
      mDisconnectToGhost.type? = some "disconnect" ∧
      mDisconnectToGhost.target? = some "ghost" ∧
      (handleMessage initialState "alice" 0 mDisconnectToGhost).2 = [] ∧
      (handleMessage initialState "alice" 0 mDisconnectToGhost).2
        ≠ [(0, OutMessage.peerUnavailable (some "ghost"))] := by
  decide

/-- Claim C3 (amended): a `connect`, `offer`, `answer` or `ice-candidate`
envelope whose `target` is not registered yields exactly one
`peer-unavailable` reply to the sender referencing that target, and nothing
is forwarded to any peer; a `disconnect` to an unregistered target is
dropped silently — no reply, no forwarding. -/
theorem unavailable_target_reply (st : ServerState) (pid : String) (ws : Nat)
    (m : InMessage) (t : String) (htar : m.target? = some t)
    (habs : st.active_connections t = none) :
    ((m.type? = some "connect" ∨ m.type? = some "offer" ∨ m.type? = some "answer" ∨
        m.type? = some "ice-candidate") →
      handleMessage st pid ws m = (st, [(ws, OutMessage.peerUnavailable (some t))])) ∧
    (m.type? = some "disconnect" → handleMessage st pid ws m = (st, [])) :=
  handleMessage_absent_target st pid ws m t htar habs

/-- Witness for C3 (amended): a `connect` from `alice` to the unregistered
`ghost` in the empty state. -/
theorem unavailable_target_reply_witness :
    mConnectToGhost.target? = some "ghost" ∧
      initialState.active_connections "ghost" = none ∧
      (((mConnectToGhost.type? = some "connect" ∨ mConnectToGhost.type? = some "offer" ∨
          mConnectToGhost.type? = some "answer" ∨
          mConnectToGhost.type? = some "ice-candidate") →
        handleMessage initialState "alice" 0 mConnectToGhost
          = (initialState, [(0, OutMessage.peerUnavailable (some "ghost"))])) ∧
      (mConnectToGhost.type? = some "disconnect" →
        handleMessage initialState "alice" 0 mConnectToGhost = (initialState, []))) :=
  ⟨rfl, rfl, unavailable_target_reply initialState "alice" 0 mConnectToGhost "ghost" rfl rfl⟩

/-- Counterexample to claim C5 as stated: after `bob`'s channel closed and
its entry was cleaned up, a later `disconnect` addressed to `bob` — a
directed envelope — produces no `peer-unavailable` reply at all (the
`disconnect` branch has no `else`), contradicting the claim for that type. -/
theorem cleanup_then_disconnect_silent_cex :
    stBobGone.active_connections "bob" = none ∧
      mDisconnectToBob.type? = some "disconnect" ∧
      mDisconnectToBob.target? = some "bob" ∧
      (handleMessage stBobGone "alice" 0 mDisconnectToBob).2 = [] ∧
      (handleMessage stBobGone "alice" 0 mDisconnectToBob).2
        ≠ [(0, OutMessage.peerUnavailable (some "bob"))] := by
  decide

/-- Claim C5 (amended): whatever ends `A`'s connection task — the client
closing (frames exhausted) or an error mid-loop — the `finally` cleanup
removes `A` from both dicts, so a lookup for `A` returns absent; any later
`connect`, `offer`, `answer` or `ice-candidate` addressed to `A` yields one
`peer-unavailable` to its sender, while a later `disconnect` addressed to
`A` is dropped with no reply. -/
theorem cleanup_on_close_unroutable (st : ServerState) (A : String) (wsA : Nat)
    (frames : List RawFrame) (pid : String) (ws : Nat) (m : InMessage)
    (htar : m.target? = some A) :
    (runConnection st A wsA frames).1.active_connections A = none ∧
      (runConnection st A wsA frames).1.peer_registry A = none ∧
      ((m.type? = some "connect" ∨ m.type? = some "offer" ∨ m.type? = some "answer" ∨
          m.type? = some "ice-candidate") →
        handleMessage (runConnection st A wsA frames).1 pid ws m
          = ((runConnection st A wsA frames).1,
              [(ws, OutMessage.peerUnavailable (some A))])) ∧
      (m.type? = some "disconnect" →
        handleMessage (runConnection st A wsA frames).1 pid ws m
          = ((runConnection st A wsA frames).1, [])) := by
  have habs := cleanupPeer_lookup_none (readLoop A wsA (registerPeer st A wsA) frames).1 A
  have hdispatch := handleMessage_absent_target (runConnection st A wsA frames).1
    pid ws m A htar habs.1
  exact ⟨habs.1, habs.2, hdispatch.1, hdispatch.2⟩

/-- Witness for C5 (amended): `bob` connects on channel 1 and closes
without sending anything; afterwards `bob` is absent from both dicts and a
later `offer` from `alice` addressed to `bob` draws one `peer-unavailable`
reply. -/
theorem cleanup_on_close_unroutable_witness :
    mOfferToBob.target? = some "bob" ∧
      ((runConnection initialState "bob" 1 []).1.active_connections "bob" = none ∧
        (runConnection initialState "bob" 1 []).1.peer_registry "bob" = none ∧
        ((mOfferToBob.type? = some "connect" ∨ mOfferToBob.type? = some "offer" ∨
            mOfferToBob.type? = some "answer" ∨
            mOfferToBob.type? = some "ice-candidate") →
          handleMessage (runConnection initialState "bob" 1 []).1 "alice" 0 mOfferToBob
            = ((runConnection initialState "bob" 1 []).1,
                [(0, OutMessage.peerUnavailable (some "bob"))])) ∧
        (mOfferToBob.type? = some "disconnect" →
          handleMessage (runConnection initialState "bob" 1 []).1 "alice" 0 mOfferToBob
            = ((runConnection initialState "bob" 1 []).1, []))) :=
  ⟨rfl, cleanup_on_close_unroutable initialState "bob" 1 [] "alice" 0 mOfferToBob rfl⟩

/-- Claim C8: the dispatch never reads a client-supplied `from` key (or any
key other than `type`, `target` and the type-specific payload keys), so two
inbound envelopes agreeing on the read fields produce identical behavior;
and every outbound envelope that carries a `from` field carries exactly the
sender's path-supplied `peer_id`. -/
theorem forwarded_from_is_path_id (st : ServerState) (pid : String) (ws : Nat)
    (m1 m2 : InMessage) (hty : m1.type? = m2.type?) (hta : m1.target? = m2.target?)
    (hof : m1.offer? = m2.offer?) (han : m1.answer? = m2.answer?)
    (hca : m1.candidate? = m2.candidate?) :
    handleMessage st pid ws m1 = handleMessage st pid ws m2 ∧
      ∀ c o, (c, o) ∈ (handleMessage st pid ws m1).2 →
        ∀ f, o.fromField = some f → f = pid := by
  constructor
  · simp only [handleMessage, hty, hta, hof, han, hca]
  · intro c o hmem f hf
    simp only [handleMessage] at hmem
    repeat' split at hmem
    all_goals simp_all [OutMessage.fromField]

/-- Witness for C8: two offers to `bob` differing only in the spoofed
client `from` key and a junk key behave identically, and the forwarded
envelope carries `from` = `alice`, not `mallory`. -/
theorem forwarded_from_is_path_id_witness :
    mSpoofedOffer.type? = mOfferToBob.type? ∧
      mSpoofedOffer.target? = mOfferToBob.target? ∧
      mSpoofedOffer.offer? = mOfferToBob.offer? ∧
      mSpoofedOffer.answer? = mOfferToBob.answer? ∧
      mSpoofedOffer.candidate? = mOfferToBob.candidate? ∧
      (handleMessage stAliceBob "alice" 0 mSpoofedOffer
          = handleMessage stAliceBob "alice" 0 mOfferToBob ∧
        ∀ c o, (c, o) ∈ (handleMessage stAliceBob "alice" 0 mSpoofedOffer).2 →
          ∀ f, o.fromField = some f → f = "alice") :=
  ⟨rfl, rfl, rfl, rfl, rfl,
    forwarded_from_is_path_id stAliceBob "alice" 0 mSpoofedOffer mOfferToBob
      rfl rfl rfl rfl rfl⟩

end WebrtcShare
